import Mathlib

/-!
Verification of the Flex001_JJ defect-inspection pipeline.

Shallow embedding of the core logic of the repository:
measurement geometry and annotation control flow
(`utils/image_utils.py`), result aggregation and defect
classification (`gui/main_window.py`), camera start / device
exclusivity (`gui/main_window.py`), camera worker retry and restart
state machine (`camera/camera_workers.py`), detection dispatch
(`detection/detection_worker.py`), and the fault record store
(`database/fault_database.py`).

Real-valued quantities (millimetre measurements, elapsed times) are
modelled over the rationals; machine integers in the Python source
are unbounded there, so plain `Int` / `Nat` are used.
-/

namespace Flex

/-! ## Bounding boxes and board-measurement geometry
From `utils/image_utils.py`, `draw_detections` (lines 113-145).
In the source a box is the tuple `(x1, y1, x2, y2, label_text)`;
the label text plays no role in the geometry, so it is omitted. -/

structure Box where
  x1 : Int
  y1 : Int
  x2 : Int
  y2 : Int
deriving Repr, DecidableEq

/-- Settings fields consumed by the board-measurement logic
(`config/settings.py`: pixels_to_mm, target_measurement_mm,
measurement_threshold_mm). -/
structure BoardSettings where
  pixels_to_mm : ℚ
  target_measurement_mm : ℚ
  measurement_threshold_mm : ℚ
deriving Repr, DecidableEq

/-- Line 132 of image_utils.py: `boxes.sort(key=lambda x: x[0])`.
Python's list.sort is a stable sort ascending by the key;
`List.mergeSort` is the stable sort of the Lean library. -/
def sortByX1 (boxes : List Box) : List Box :=
  boxes.mergeSort (fun a b => a.x1 ≤ b.x1)

/-- The quantities computed by the measurement block of
`draw_detections` (image_utils.py lines 133-145). -/
structure Measurement where
  right_dist_mm : ℚ
  left_dist_mm : ℚ
  avg_measurement : ℚ
  is_measurement_defect : Bool
deriving Repr, DecidableEq

/-- Measurement block of `draw_detections` (image_utils.py lines
131-145), entered only when `len(boxes) >= 2`: sort by x1, take the
first and last boxes, convert the two edge distances to millimetres
and average them; defect iff the average deviates from the target
by more than the threshold. -/
def boardMeasurement (boxes : List Box) (s : BoardSettings) : Option Measurement :=
  if 2 ≤ boxes.length then
    let sorted := sortByX1 boxes
    match sorted.head?, sorted.getLast? with
    | some box1, some box2 =>
      let right_dist_px : Int := box2.x2 - box1.x2
      let left_dist_px : Int := box2.x1 - box1.x1
      let right_dist_mm : ℚ := right_dist_px * s.pixels_to_mm
      let left_dist_mm : ℚ := left_dist_px * s.pixels_to_mm
      let avg := (right_dist_mm + left_dist_mm) / 2
      let diff := |avg - s.target_measurement_mm|
      some ⟨right_dist_mm, left_dist_mm, avg, s.measurement_threshold_mm < diff⟩
    | _, _ => none
  else none

/-! ## Python runtime values and the final line of draw_detections
`draw_detections` (image_utils.py line 104) assigns the local name
display_image to an image array; its final line (177) is
`display_image(display_image, label)`.  Because the name is assigned
in the function body, Python resolves it to the local array, not the
module-level function of the same name (line 65), and calling a
NumPy array raises TypeError. -/

inductive PyValue where
  | ndarray (data : List Int)
  | pyfunc (name : String)
deriving Repr, DecidableEq

def PyValue.isCallable : PyValue → Bool
  | .ndarray _ => false
  | .pyfunc _ => true

inductive PyError where
  | typeError
  | nameError
deriving Repr, DecidableEq

/-- Calling a Python value: a function call succeeds, calling a
non-callable object (such as a NumPy array) raises TypeError. -/
def pyCall (f : PyValue) : Except PyError Unit :=
  if f.isCallable then .ok () else .error .typeError

/-- Python name resolution inside a function body: a name assigned
anywhere in the body is local for the whole body, so the local
binding is consulted before the module globals. -/
def resolveName (locals globals : List (String × PyValue)) (n : String) : Option PyValue :=
  match locals.lookup n with
  | some v => some v
  | none => globals.lookup n

/-- Observable effects of one `draw_detections` call. -/
structure DrawEffects where
  defect_border_drawn : Bool
  boxes_drawn : Nat
  measurement : Option Measurement
  displayed_on_label : Bool
deriving Repr, DecidableEq

/-- Embedding of `draw_detections` (image_utils.py lines 88-177).
With empty (falsy) results the function returns early at line 101.
Otherwise it copies the input image into the local name
display_image, draws the red border and DEFECT text when asked
(lines 106-111), draws every box (113-128), runs the measurement
block when the label is a board label and at least two boxes were
found (130-174), and finally executes line 177,
`display_image(display_image, label)`: the name resolves to the
local image array and the call is attempted on it. -/
def draw_detections (image : List Int) (results : List Box) (isBoardLabel : Bool)
    (s : BoardSettings) (is_defect : Bool) : Except PyError DrawEffects :=
  if results.isEmpty then
    .ok ⟨false, 0, none, false⟩
  else
    let locals : List (String × PyValue) := [("display_image", PyValue.ndarray image)]
    let globals : List (String × PyValue) := [("display_image", PyValue.pyfunc "display_image")]
    let meas : Option Measurement :=
      if isBoardLabel then boardMeasurement results s else none
    let borderDrawn : Bool :=
      is_defect || (match meas with
        | some m => m.is_measurement_defect
        | none => false)
    match resolveName locals globals "display_image" with
    | none => .error .nameError
    | some f =>
      match pyCall f with
      | .error e => .error e
      | .ok _ => .ok ⟨borderDrawn, results.length, meas, true⟩

/-! ## Concrete example inputs from the specification -/

def exBoxA : Box := ⟨10, 0, 50, 100⟩

def exBoxB : Box := ⟨200, 0, 260, 100⟩

/-- Settings with pixels_to_mm = 0.1, target 20.0 mm, threshold 5.0 mm. -/
def exSettings20 : BoardSettings := ⟨1/10, 20, 5⟩

/-- Settings with pixels_to_mm = 0.1, target 10.0 mm, threshold 5.0 mm. -/
def exSettings10 : BoardSettings := ⟨1/10, 10, 5⟩

/-! ## Theorems for the measurement claims -/

lemma sortByX1_ex : sortByX1 [exBoxA, exBoxB] = [exBoxA, exBoxB] := by
  apply List.mergeSort_of_sorted
  simp [exBoxA, exBoxB]

lemma boardMeasurement_ex20 :
    boardMeasurement [exBoxA, exBoxB] exSettings20 = some ⟨21, 19, 20, false⟩ := by
  simp only [boardMeasurement, sortByX1_ex]
  norm_num [exBoxA, exBoxB, exSettings20, List.head?, List.getLast?]

lemma boardMeasurement_ex10 :
    boardMeasurement [exBoxA, exBoxB] exSettings10 = some ⟨21, 19, 20, true⟩ := by
  simp only [boardMeasurement, sortByX1_ex]
  norm_num [exBoxA, exBoxB, exSettings10, List.head?, List.getLast?]

/-- C4: the board measurement sorts the boxes ascending by x1 with a
stable sort (the sorted list is a permutation of the input, is
pairwise ordered by x1, and ties keep their original relative
order), and on the example boxes (10,0,50,100), (200,0,260,100) with
pixels_to_mm = 0.1 it computes right distance 21.0 mm, left distance
19.0 mm and average 20.0 mm, which is not a defect for target 20.0 /
threshold 5.0 and is a defect for target 10.0 / threshold 5.0. -/
theorem C4_board_measurement :
    (∀ boxes : List Box, (sortByX1 boxes).Perm boxes)
    ∧ (∀ boxes : List Box, (sortByX1 boxes).Pairwise (fun a b => a.x1 ≤ b.x1))
    ∧ (∀ (a b : Box) (l : List Box), a.x1 = b.x1 → [a, b].Sublist l →
        [a, b].Sublist (sortByX1 l))
    ∧ boardMeasurement [exBoxA, exBoxB] exSettings20 = some ⟨21, 19, 20, false⟩
    ∧ boardMeasurement [exBoxA, exBoxB] exSettings10 = some ⟨21, 19, 20, true⟩ := by
  refine ⟨fun boxes => List.mergeSort_perm boxes _, ?_, ?_, boardMeasurement_ex20, boardMeasurement_ex10⟩
  · intro boxes
    have h := @List.sorted_mergeSort Box (fun a b : Box => decide (a.x1 ≤ b.x1))
      (fun a b c hab hbc => by
        simp only [decide_eq_true_eq] at *
        exact le_trans hab hbc)
      (fun a b => by
        simp only [Bool.or_eq_true, decide_eq_true_eq]
        exact le_total a.x1 b.x1) boxes
    exact h.imp (fun h => by simpa using h)
  · intro a b l hx hsub
    exact List.pair_sublist_mergeSort
      (fun a b c hab hbc => by
        simp only [decide_eq_true_eq] at *
        exact le_trans hab hbc)
      (fun a b => by
        simp only [Bool.or_eq_true, decide_eq_true_eq]
        exact le_total a.x1 b.x1)
      (by simp [hx]) hsub

/-- Witness for C4: the stability clause applied at a concrete tie. -/
theorem C4_board_measurement_witness :
    [(⟨5, 0, 7, 9⟩ : Box), ⟨5, 1, 6, 8⟩].Sublist
      (sortByX1 [⟨5, 0, 7, 9⟩, ⟨5, 1, 6, 8⟩]) :=
  C4_board_measurement.2.2.1 ⟨5, 0, 7, 9⟩ ⟨5, 1, 6, 8⟩ _ rfl (List.Sublist.refl _)

/-- C10: for every call of `draw_detections` with non-empty (truthy)
results, the final display step raises a TypeError, because the
local variable display_image (the image array assigned at the top of
the function) shadows the module-level display_image function that
the last line attempts to call; consequently the annotated image is
never shown on the label (no successful return ever has
displayed_on_label set) and the error propagates to the caller. -/
theorem C10_draw_detections_type_error (image : List Int) (results : List Box)
    (isBoardLabel : Bool) (s : BoardSettings) (is_defect : Bool)
    (h : results ≠ []) :
    draw_detections image results isBoardLabel s is_defect = .error .typeError
    ∧ ∀ eff, draw_detections image results isBoardLabel s is_defect ≠ .ok eff := by
  have hne : results.isEmpty = false := by
    simpa [List.isEmpty_iff] using h
  constructor
  · simp [draw_detections, hne, resolveName, pyCall, PyValue.isCallable]
  · intro eff
    simp [draw_detections, hne, resolveName, pyCall, PyValue.isCallable]

/-- Witness for C10 at a concrete single-box call. -/
theorem C10_draw_detections_type_error_witness :
    draw_detections [0] [exBoxA] true exSettings20 false = .error .typeError :=
  (C10_draw_detections_type_error [0] [exBoxA] true exSettings20 false (by simp)).1

/-! ## Result aggregation and defect classification
From `gui/main_window.py`, `handle_batch_detection_results`
(lines 432-478).  The observable effects relevant to the claims are
the fault records inserted through `fault_db.log_fault` and the
number of `relay.trigger` pulses. -/

/-- A detection outcome delivered for one image: its bounding boxes
(the `result.boxes` sequence of a YOLO result). -/
structure Outcome where
  boxes : List Box
deriving Repr, DecidableEq

/-- A row handed to `FaultDatabase.log_fault` (fault_database.py
lines 42-61): fault type, image index, details, optional
measurement.  The timestamp is added by the store itself. -/
structure FaultRecord where
  fault_type : String
  image_index : Nat
  details : String
  measurement : Option ℚ
deriving Repr, DecidableEq

inductive DetectorType where
  | nail
  | board
deriving Repr, DecidableEq

/-- Loop body of `handle_batch_detection_results` for one non-None
`(result, image_index)` pair (main_window.py lines 447-462).
Nail branch: when `len(result.boxes) > 0`, one
`log_fault("Nail", image_index + 1, "Detected {n} nails")` and one
relay pulse, then `draw_detections` on the nail label with
`is_defect = has_nails`.  Board branch: no fault logging and no
pulse, only `draw_detections` on the board label.  Returns the
records inserted, the pulse count, and the propagated result of the
`draw_detections` call. -/
def processOne (dt : DetectorType) (r : Outcome) (image_index : Nat)
    (img : List Int) (s : BoardSettings) :
    List FaultRecord × Nat × Except PyError Unit :=
  match dt with
  | .nail =>
    let has_nails : Bool := 0 < r.boxes.length
    let recs : List FaultRecord :=
      if has_nails then
        [⟨"Nail", image_index + 1,
          "Detected " ++ toString r.boxes.length ++ " nails", none⟩]
      else []
    let pulses : Nat := if has_nails then 1 else 0
    (recs, pulses, (draw_detections img r.boxes false s has_nails).map fun _ => ())
  | .board =>
    ([], 0, (draw_detections img r.boxes true s false).map fun _ => ())

/-- The `for result, image_index in zip(results_list, image_indices)`
loop (main_window.py lines 442-462).  A None result is logged and
skipped; an exception escaping `draw_detections` aborts the rest of
the loop (the handler has no try block around it), with the inserts
and pulses already performed kept. -/
def processLoop (dt : DetectorType) (imgs : Nat → List Int) (s : BoardSettings) :
    List (Option Outcome × Nat) → List FaultRecord × Nat
  | [] => ([], 0)
  | (none, _) :: rest => processLoop dt imgs s rest
  | (some r, image_index) :: rest =>
    match processOne dt r image_index (imgs image_index) s with
    | (recs, pulses, .error _) => (recs, pulses)
    | (recs, pulses, .ok _) =>
      let (recs2, pulses2) := processLoop dt imgs s rest
      (recs ++ recs2, pulses + pulses2)

/-- Embedding of `handle_batch_detection_results` (main_window.py
lines 432-462) restricted to its persistent effects: the early
return when the result list is empty or all None (lines 434-437),
then the classification loop.  Returns the inserted fault records
(in order) and the number of relay pulses. -/
def handle_batch_detection_results (dt : DetectorType)
    (results_list : List (Option Outcome)) (image_indices : List Nat)
    (imgs : Nat → List Int) (s : BoardSettings) : List FaultRecord × Nat :=
  if results_list.isEmpty || results_list.all (fun r => r.isNone) then
    ([], 0)
  else
    processLoop dt imgs s (results_list.zip image_indices)

/-- C3: for every nail-class detection outcome as the code dispatches
them (each nail frame is dispatched as a one-image batch): if the
outcome has no boxes then no FaultRecord is inserted and no actuator
pulse occurs; if it has at least one box then exactly one
FaultRecord with fault type Nail and image index slotIndex+1 is
inserted and exactly one actuator pulse occurs. -/
theorem C3_nail_classification (r : Outcome) (slotIndex : Nat)
    (imgs : Nat → List Int) (s : BoardSettings) :
    (r.boxes = [] →
      handle_batch_detection_results .nail [some r] [slotIndex] imgs s = ([], 0))
    ∧ (r.boxes ≠ [] →
      handle_batch_detection_results .nail [some r] [slotIndex] imgs s =
        ([⟨"Nail", slotIndex + 1,
           "Detected " ++ toString r.boxes.length ++ " nails", none⟩], 1)) := by
  constructor
  · intro h
    simp [handle_batch_detection_results, processLoop, processOne, h,
      draw_detections, Except.map]
  · intro h
    have hne : r.boxes.isEmpty = false := by simpa [List.isEmpty_iff] using h
    have hlen : 0 < r.boxes.length := List.length_pos.mpr h
    simp [handle_batch_detection_results, processLoop, processOne, hne, hlen,
      draw_detections, resolveName, pyCall, PyValue.isCallable, Except.map]

/-- Witness for C3: a single detected nail in slot 0 yields exactly
one Nail record for image 1 and one pulse. -/
theorem C3_nail_classification_witness :
    handle_batch_detection_results .nail [some ⟨[exBoxA]⟩] [0] (fun _ => []) exSettings20 =
      ([⟨"Nail", 1, "Detected 1 nails", none⟩], 1) :=
  (C3_nail_classification ⟨[exBoxA]⟩ 0 (fun _ => []) exSettings20).2 (by simp)

/-- C1 (code bug): a board-class outcome whose two boxes yield an
average measurement of 20.0 mm against target 10.0 mm with threshold
5.0 mm is a measurement defect, yet the aggregator inserts no
FaultRecord at all (in particular none with fault type Board
Alignment) and pulses nothing: the board branch of
`handle_batch_detection_results` (main_window.py lines 458-462) only
calls `draw_detections`, which merely logs and annotates, and no code
path in the repository ever calls `log_fault` with Board Alignment,
although the store docstring, the history dialog filter and the
statistics counter all expect such records. -/
theorem C1_board_defect_not_persisted :
    (boardMeasurement [exBoxA, exBoxB] exSettings10).map Measurement.is_measurement_defect
      = some true
    ∧ handle_batch_detection_results .board [some ⟨[exBoxA, exBoxB]⟩] [0]
        (fun _ => []) exSettings10 = ([], 0) := by
  constructor
  · rw [boardMeasurement_ex10]; rfl
  · simp [handle_batch_detection_results, processLoop, processOne,
      draw_detections, resolveName, pyCall, PyValue.isCallable, Except.map,
      exBoxA, exBoxB]

/-! ## Device exclusivity at camera start
From `gui/main_window.py`, `_start_nail_camera` (lines 185-233) and
`_start_camera` (lines 285-339).  Devices are identified by their
position in the available-cameras list; the in-use check is `camera
in self.nail_cameras` respectively `camera in self.board_cameras` -
membership of the device identity in the per-class claimed list. -/

/-- Slot-ownership state of the main window: the available device
identities, the per-class lists of claimed devices, and the
per-class sets of slot indices with active workers. -/
structure GuiState where
  available_cameras : List Nat
  nail_cameras : List Nat
  board_cameras : List Nat
  nail_workers : List Nat
  board_workers : List Nat
deriving Repr, DecidableEq

inductive StartOutcome where
  | alreadyRunning
  | invalidSelection
  | inUseError (msg : String)
  | started
  | startFailed (msg : String)
deriving Repr, DecidableEq

/-- Embedding of `_start_nail_camera` (main_window.py lines 185-233).
The worker-exists early return, the selection bound check, the
`camera in self.nail_cameras` exclusivity check with
`_handle_camera_error` on failure, then the append to nail_cameras
followed by configuration and worker start; on an exception in the
try block the error is reported and - in the nail path - the camera
is left in nail_cameras (there is no rollback). -/
def startNailCamera (st : GuiState) (cam_index : Nat) (selected_index : Nat)
    (configOk : Bool) : GuiState × StartOutcome :=
  if cam_index ∈ st.nail_workers then (st, .alreadyRunning)
  else if h : selected_index < st.available_cameras.length then
    let camera := st.available_cameras[selected_index]
    if camera ∈ st.nail_cameras then
      (st, .inUseError "Camera is already in use by another nail camera")
    else
      let st1 := { st with nail_cameras := st.nail_cameras ++ [camera] }
      if configOk then
        ({ st1 with nail_workers := st1.nail_workers ++ [cam_index] }, .started)
      else
        (st1, .startFailed "Failed to start")
  else (st, .invalidSelection)

/-- Embedding of `_start_camera` (main_window.py lines 285-339), the
board analogue; unlike the nail path, its exception handler removes
the camera from board_cameras and the worker entry again (lines
332-335), so a failed start leaves the state unchanged. -/
def startBoardCamera (st : GuiState) (cam_index : Nat) (selected_index : Nat)
    (configOk : Bool) : GuiState × StartOutcome :=
  if cam_index ∈ st.board_workers then (st, .alreadyRunning)
  else if h : selected_index < st.available_cameras.length then
    let camera := st.available_cameras[selected_index]
    if camera ∈ st.board_cameras then
      (st, .inUseError "Camera is already in use by another board camera")
    else
      if configOk then
        ({ st with board_cameras := st.board_cameras ++ [camera],
                   board_workers := st.board_workers ++ [cam_index] }, .started)
      else
        (st, .startFailed "Failed to start")
  else (st, .invalidSelection)

/-- C2 counterexample: the exclusivity check is per class only.
Starting board slot 0 on device 7 and then nail slot 0 on the same
device 7 both succeed, leaving the one device identity claimed by
two active slots of different classes, with no reported error on the
second start - refuting the claim for pairs of slots of different
detector classes. -/
theorem C2_cross_class_counterexample :
    (startBoardCamera ⟨[7], [], [], [], []⟩ 0 0 true).2 = .started
    ∧ (startNailCamera (startBoardCamera ⟨[7], [], [], [], []⟩ 0 0 true).1 0 0 true).2
        = .started
    ∧ 7 ∈ (startNailCamera (startBoardCamera ⟨[7], [], [], [], []⟩ 0 0 true).1 0 0 true).1.board_cameras
    ∧ 7 ∈ (startNailCamera (startBoardCamera ⟨[7], [], [], [], []⟩ 0 0 true).1 0 0 true).1.nail_cameras := by
  decide

/-- C2 (amended): for every pair of distinct slots of the same
detector class and every device identity, starting a second slot of
that class against a device identity already claimed by an active
slot of the same class fails the second start attempt with a
reported in-use error and leaves the whole slot-ownership state (in
particular the first slot's ownership) unchanged. -/
theorem C2_same_class_exclusive (st : GuiState) (cam_index selected_index : Nat)
    (configOk : Bool) (hsel : selected_index < st.available_cameras.length) :
    (st.available_cameras[selected_index] ∈ st.nail_cameras →
      cam_index ∉ st.nail_workers →
      startNailCamera st cam_index selected_index configOk =
        (st, .inUseError "Camera is already in use by another nail camera"))
    ∧ (st.available_cameras[selected_index] ∈ st.board_cameras →
      cam_index ∉ st.board_workers →
      startBoardCamera st cam_index selected_index configOk =
        (st, .inUseError "Camera is already in use by another board camera")) := by
  constructor
  · intro hin hw
    simp [startNailCamera, hw, hsel, hin]
  · intro hin hw
    simp [startBoardCamera, hw, hsel, hin]

/-- Witness for C2: with device 7 already claimed by nail slot 0, a
start of nail slot 1 on the same device fails with the in-use error
and changes nothing. -/
theorem C2_same_class_exclusive_witness :
    startNailCamera ⟨[7], [7], [], [0], []⟩ 1 0 true =
      (⟨[7], [7], [], [0], []⟩, .inUseError "Camera is already in use by another nail camera") :=
  (C2_same_class_exclusive ⟨[7], [7], [], [0], []⟩ 1 0 true (by decide)).1
    (by decide) (by decide)

/-! ## Hardware-triggered worker: grab loop, retry and restart
From `camera/camera_workers.py`, `HardwareTriggeredCameraWorker`:
`run` (lines 84-114), `_handle_error` (116-124), `_restart_camera`
(126-147).  The loop is driven by the outcome of each
`RetrieveResult` call; whether a restart attempt would succeed is an
environment fact carried on the failure event. -/

/-- Mutable worker fields consulted by the loop: the running flag,
whether the camera is grabbing, and retry_count.  max_retries is the
constant 3 and retry_delay 1.0 s (timing is not modelled). -/
structure WorkerState where
  running : Bool
  grabbing : Bool
  retry_count : Nat
deriving Repr, DecidableEq

/-- Outcome of one `RetrieveResult` call: a grabbed frame, a timeout
(`pylon.TimeoutException`), or a non-timeout failure (an
unsuccessful grab result or any other exception).  A failure carries
whether the full restart in `_restart_camera` would succeed, were it
attempted. -/
inductive GrabEvent where
  | success
  | timeout
  | failure (restartOk : Bool)
deriving Repr, DecidableEq

/-- Events observable from one loop iteration: a frame_ready
emission, an error_occurred emission, the max-retries error message,
and the outcome of a restart attempt. -/
inductive WorkerEvent where
  | frameEmitted
  | errorReported
  | maxRetriesReported
  | restartSucceeded
  | restartFailed
deriving Repr, DecidableEq

/-- One iteration of the `while self.running` loop
(camera_workers.py lines 86-114).  When not running the loop body
does not execute; when the camera is not grabbing the iteration does
nothing.  On success: emit the frame and reset retry_count to 0 (lines
93-100).  On timeout: sleep only (lines 106-108).  On a non-timeout
failure: emit the error and run `_handle_error` (lines 101-105,
109-114) - increment retry_count; if it reached max_retries = 3,
report, run `_restart_camera` and reset retry_count to 0 (the reset on
line 122 runs whether or not the restart succeeded); a failed restart
reports the error and clears the running flag (line 147), with the
camera left closed. -/
def workerStep (st : WorkerState) (e : GrabEvent) : WorkerState × List WorkerEvent :=
  if st.running = false then (st, [])
  else if st.grabbing = false then (st, [])
  else
    match e with
    | .success => ({ st with retry_count := 0 }, [.frameEmitted])
    | .timeout => (st, [])
    | .failure restartOk =>
      if 3 ≤ st.retry_count + 1 then
        if restartOk then
          ({ st with retry_count := 0 },
           [.errorReported, .maxRetriesReported, .restartSucceeded])
        else
          (⟨false, false, 0⟩,
           [.errorReported, .maxRetriesReported, .restartFailed])
      else
        ({ st with retry_count := st.retry_count + 1 }, [.errorReported])

/-- The loop run over a sequence of grab outcomes, collecting all
observable events in order. -/
def runWorker : WorkerState → List GrabEvent → WorkerState × List WorkerEvent
  | st, [] => (st, [])
  | st, e :: es =>
    let (st1, out) := workerStep st e
    let (st2, outs) := runWorker st1 es
    (st2, out ++ outs)

def WorkerEvent.isRestartAttempt : WorkerEvent → Bool
  | .restartSucceeded => true
  | .restartFailed => true
  | _ => false

lemma runWorker_append (st : WorkerState) (es fs : List GrabEvent) :
    runWorker st (es ++ fs) =
      ((runWorker (runWorker st es).1 fs).1,
       (runWorker st es).2 ++ (runWorker (runWorker st es).1 fs).2) := by
  induction es generalizing st with
  | nil => simp [runWorker]
  | cons e es ih =>
    simp only [List.cons_append, runWorker, List.append_eq]
    rw [ih]
    simp [List.append_assoc]

lemma workerStep_retry_le (st : WorkerState) (e : GrabEvent)
    (h : st.retry_count ≤ 2) : (workerStep st e).1.retry_count ≤ 2 := by
  cases e with
  | success =>
    unfold workerStep
    split
    · exact h
    split
    · exact h
    · exact Nat.zero_le 2
  | timeout =>
    unfold workerStep
    split
    · exact h
    split
    · exact h
    · exact h
  | failure restartOk =>
    unfold workerStep
    split
    · exact h
    split
    · exact h
    · dsimp only
      split
      · split
        · exact Nat.zero_le 2
        · exact Nat.zero_le 2
      · next hlt =>
        show st.retry_count + 1 ≤ 2
        omega

lemma runWorker_retry_le (st : WorkerState) (es : List GrabEvent)
    (h : st.retry_count ≤ 2) : (runWorker st es).1.retry_count ≤ 2 := by
  induction es generalizing st with
  | nil => simpa [runWorker] using h
  | cons e es ih =>
    simp only [runWorker]
    exact ih _ (workerStep_retry_le st e h)

lemma runWorker_stopped (es : List GrabEvent) :
    runWorker ⟨false, false, 0⟩ es = (⟨false, false, 0⟩, []) := by
  induction es with
  | nil => rfl
  | cons e es ih => simp [runWorker, workerStep, ih]

lemma runWorker_three_failures (st : WorkerState) (hr : st.running = true)
    (hg : st.grabbing = true) (h0 : st.retry_count = 0) :
    runWorker st [.failure true, .failure true, .failure true] =
      (st, [.errorReported, .errorReported, .errorReported,
            .maxRetriesReported, .restartSucceeded]) := by
  obtain ⟨running, grabbing, rc⟩ := st
  simp only at hr hg h0
  subst hr hg h0
  rfl

/-- C5: three consecutive non-timeout grab failures trigger exactly
one restart with the retry counter reset to 0; the counter never
exceeds max_retries = 3 before the reset (it stays at most 2 after
every iteration); counting restarts, a run of 3k consecutive
failures with successful restarts performs exactly k restarts and
returns to the initial state, so after a successful restart another
3 consecutive failures are again required for the next restart; and
when the restart attempt fails the worker stops (running becomes
false) and processes no further events. -/
theorem C5_retry_restart (st : WorkerState) (hr : st.running = true)
    (hg : st.grabbing = true) (h0 : st.retry_count = 0) :
    (∀ (st0 : WorkerState) (es : List GrabEvent), st0.retry_count ≤ 2 →
      (runWorker st0 es).1.retry_count ≤ 2)
    ∧ runWorker st [.failure true, .failure true, .failure true] =
        (st, [.errorReported, .errorReported, .errorReported,
              .maxRetriesReported, .restartSucceeded])
    ∧ (∀ k : Nat,
        (runWorker st (List.replicate (3 * k) (.failure true))).1 = st
        ∧ ((runWorker st (List.replicate (3 * k) (.failure true))).2.filter
            WorkerEvent.isRestartAttempt).length = k)
    ∧ (∀ es : List GrabEvent,
        runWorker st ([.failure true, .failure true, .failure false] ++ es) =
          (⟨false, false, 0⟩,
           [.errorReported, .errorReported, .errorReported,
            .maxRetriesReported, .restartFailed])) := by
  refine ⟨fun st0 es h => runWorker_retry_le st0 es h,
    runWorker_three_failures st hr hg h0, ?_, ?_⟩
  · intro k
    induction k with
    | zero => simp [runWorker]
    | succ k ih =>
      have hsplit : 3 * (k + 1) = 3 + 3 * k := by ring
      rw [hsplit, List.replicate_add]
      have h3 : List.replicate 3 (GrabEvent.failure true) =
          [.failure true, .failure true, .failure true] := rfl
      rw [runWorker_append, h3, runWorker_three_failures st hr hg h0]
      refine ⟨ih.1, ?_⟩
      simp only [List.filter_append, List.length_append, ih.2]
      simp only [List.filter, WorkerEvent.isRestartAttempt, List.length]
      omega
  · intro es
    have hpre : runWorker st [.failure true, .failure true, .failure false] =
        (⟨false, false, 0⟩,
         [.errorReported, .errorReported, .errorReported,
          .maxRetriesReported, .restartFailed]) := by
      obtain ⟨running, grabbing, rc⟩ := st
      simp only at hr hg h0
      subst hr hg h0
      rfl
    rw [runWorker_append, hpre]
    simp [runWorker_stopped]

/-- Witness for C5: from the freshly started state, three failures
with a working restart yield one restart attempt and end back in the
initial state. -/
theorem C5_retry_restart_witness :
    runWorker ⟨true, true, 0⟩ [.failure true, .failure true, .failure true] =
      (⟨true, true, 0⟩, [.errorReported, .errorReported, .errorReported,
        .maxRetriesReported, .restartSucceeded]) :=
  (C5_retry_restart ⟨true, true, 0⟩ rfl rfl rfl).2.1

/-- C6: a grab timeout is benign in every state: the loop iteration
leaves the worker state (in particular retry_count) unchanged and
emits no event at all, consuming none of the retry budget. -/
theorem C6_timeout_benign (st : WorkerState) :
    workerStep st .timeout = (st, []) := by
  unfold workerStep
  split
  · rfl
  split <;> rfl

/-! ## Detection dispatch
From `detection/detection_worker.py`, `BatchDetectionWorker.run`
(lines 35-59): the whole body is wrapped in try/except; on success
it emits `(results, detector_type, image_indices, inference_time)`,
on any exception it emits `([None] * len(images), detector_type,
image_indices, 0.0)`. -/

/-- Result of the model inference call (line 47) together with
everything else inside the try block: either one outcome per image,
or some internal failure (an exception anywhere in the block). -/
inductive InferResult where
  | ok (outcomes : List Outcome)
  | failed
deriving Repr, DecidableEq

/-- Embedding of `BatchDetectionWorker.run`: the emitted completion
tuple.  The function is total - the except branch converts every
internal failure into a well-formed tuple instead of propagating. -/
def batchDetectionRun (images : List (List Int)) (dt : DetectorType)
    (image_indices : List Nat) (infer : List (List Int) → InferResult)
    (inference_time : ℚ) :
    List (Option Outcome) × DetectorType × List Nat × ℚ :=
  match infer images with
  | .ok outcomes => (outcomes.map some, dt, image_indices, inference_time)
  | .failed => (List.replicate images.length none, dt, image_indices, 0)

/-- C7: for every dispatch on which the inference fails internally,
the dispatcher delivers a result sequence of exactly one None per
input image, paired with the same detector class and slot indices
and an elapsed time of 0, and (being a total function) never
propagates an exception to the caller. -/
theorem C7_dispatch_failure (images : List (List Int)) (dt : DetectorType)
    (image_indices : List Nat) (infer : List (List Int) → InferResult)
    (inference_time : ℚ) (h : infer images = .failed) :
    batchDetectionRun images dt image_indices infer inference_time =
      (List.replicate images.length none, dt, image_indices, 0)
    ∧ (batchDetectionRun images dt image_indices infer inference_time).1.length
        = images.length
    ∧ (batchDetectionRun images dt image_indices infer inference_time).1.all
        (fun r => r.isNone) = true := by
  refine ⟨by simp [batchDetectionRun, h], ?_, ?_⟩
  · simp [batchDetectionRun, h]
  · simp [batchDetectionRun, h, List.all_eq_true]

/-- Witness for C7: a failing inference over two images yields two
None results and elapsed time 0. -/
theorem C7_dispatch_failure_witness :
    batchDetectionRun [[1], [2]] .nail [0, 1] (fun _ => .failed) 7 =
      ([none, none], .nail, [0, 1], 0) :=
  (C7_dispatch_failure [[1], [2]] .nail [0, 1] (fun _ => .failed) 7 rfl).1

/-! ## Fault record store
From `database/fault_database.py`: `log_fault` (lines 42-61, an SQL
INSERT appending one row), `get_faults` (63-102, SELECT with
optional filters and ORDER BY timestamp DESC - SQLite compares TEXT
columns bytewise, modelled by the lexicographic order on strings),
and `export_to_csv` (152-179). -/

/-- One stored row as returned by the SELECT in `get_faults`:
`(timestamp, fault_type, image_index, details, measurement)`. -/
structure StoredFault where
  timestamp : String
  fault_type : String
  image_index : Int
  details : String
  measurement : Option ℚ
deriving Repr, DecidableEq

/-- The INSERT of `log_fault`: appends one row to the table. -/
def insertFault (db : List StoredFault) (r : StoredFault) : List StoredFault :=
  db ++ [r]

/-- The WHERE clause built in `get_faults` (lines 79-93): timestamp
lower bound when a start date is given, upper bound when an end date
is given, and an equality filter when a fault type other than All
(or empty) is given. -/
def matchesFilters (start_date end_date fault_type : Option String)
    (r : StoredFault) : Bool :=
  (match start_date with
   | some d => decide ((d ++ " 00:00:00") ≤ r.timestamp)
   | none => true)
  && (match end_date with
   | some d => decide (r.timestamp ≤ (d ++ " 23:59:59"))
   | none => true)
  && (match fault_type with
   | some ft => if ft ≠ "All" && ft ≠ "" then decide (r.fault_type = ft) else true
   | none => true)

/-- ORDER BY timestamp DESC as a comparison function. -/
def tsDesc (a b : StoredFault) : Bool := decide (b.timestamp ≤ a.timestamp)

/-- Embedding of `get_faults`: filter, then sort by timestamp
descending. -/
def get_faults (db : List StoredFault)
    (start_date end_date fault_type : Option String) : List StoredFault :=
  (db.filter (matchesFilters start_date end_date fault_type)).mergeSort tsDesc

/-- A CSV cell as handed to `csv.writer.writerow`: the Python value
written, either a string, an integer, or a numeric measurement. -/
inductive CsvCell where
  | str (s : String)
  | int (i : Int)
  | rat (q : ℚ)
deriving Repr, DecidableEq

/-- One data row of `export_to_csv` (lines 167-174): the five stored
fields in order, with a missing measurement written as the empty
string. -/
def csvRow (r : StoredFault) : List CsvCell :=
  [.str r.timestamp, .str r.fault_type, .int r.image_index, .str r.details,
   match r.measurement with
   | some m => .rat m
   | none => .str ""]

/-- Embedding of `export_to_csv` (lines 152-179): the fixed 5-column
header row followed by one row per record. -/
def export_to_csv (faults : List StoredFault) : List (List CsvCell) :=
  [CsvCell.str "Timestamp", .str "Type", .str "Image", .str "Details",
   .str "Measurement"] :: faults.map csvRow

lemma foldl_insertFault (acc : List StoredFault) (recs : List StoredFault) :
    List.foldl insertFault acc recs = acc ++ recs := by
  induction recs generalizing acc with
  | nil => simp [List.foldl]
  | cons r recs ih => simp [List.foldl, insertFault, ih]

lemma tsDesc_trans (a b c : StoredFault) (hab : tsDesc a b) (hbc : tsDesc b c) :
    tsDesc a c := by
  simp only [tsDesc, decide_eq_true_eq] at *
  exact le_trans hbc hab

lemma tsDesc_total (a b : StoredFault) : tsDesc a b || tsDesc b a := by
  simp only [tsDesc, Bool.or_eq_true, decide_eq_true_eq]
  exact le_total b.timestamp a.timestamp

/-- C8: inserting N fault records into an empty store yields exactly
those N rows; querying with no filters returns a permutation of all
N rows, pairwise ordered by timestamp descending (newest first) and
of the same length; and exporting the query result to CSV produces
the fixed header Timestamp, Type, Image, Details, Measurement
followed by exactly one row per record reproducing the five stored
fields, with an absent measurement rendered as the empty string. -/
theorem C8_store_roundtrip (recs : List StoredFault) :
    List.foldl insertFault [] recs = recs
    ∧ (get_faults recs none none none).Perm recs
    ∧ (get_faults recs none none none).Pairwise
        (fun a b => b.timestamp ≤ a.timestamp)
    ∧ (get_faults recs none none none).length = recs.length
    ∧ export_to_csv (get_faults recs none none none) =
        [CsvCell.str "Timestamp", .str "Type", .str "Image", .str "Details",
         .str "Measurement"]
          :: (get_faults recs none none none).map (fun r =>
            [CsvCell.str r.timestamp, .str r.fault_type, .int r.image_index,
             .str r.details,
             match r.measurement with
             | some m => CsvCell.rat m
             | none => CsvCell.str ""])
    ∧ (export_to_csv (get_faults recs none none none)).length =
        (get_faults recs none none none).length + 1 := by
  have hfilter : recs.filter (matchesFilters none none none) = recs := by
    simp [matchesFilters]
  have hperm : (get_faults recs none none none).Perm recs := by
    rw [get_faults, hfilter]
    exact List.mergeSort_perm recs tsDesc
  refine ⟨foldl_insertFault [] recs, hperm, ?_, hperm.length_eq, ?_, ?_⟩
  · rw [get_faults, hfilter]
    have h := List.sorted_mergeSort tsDesc_trans tsDesc_total recs
    exact h.imp (fun hab => by simpa [tsDesc] using hab)
  · rw [export_to_csv]
    simp [csvRow]
  · simp [export_to_csv]

/-! ## Frame-buffer copy on emission
From `camera/camera_workers.py`: the hardware-triggered worker's
success branch (lines 93-100, `img = grab_result.Array;
frame_ready.emit(cam_index, img); ...; grab_result.Release()`) and the
timed worker's `grab_frame` success branch (lines 229-237, same
pattern).  Buffer aliasing is made explicit by a small heap of
addressed byte buffers: `grab_result.Array` is the pypylon accessor
that copies the SDK grab buffer into a freshly allocated array
(the zero-copy access would be a different API), and
`grab_result.Release()` frees the SDK buffer. -/

/-- Addressed mutable buffers: an association from addresses to byte
contents together with the next fresh address. -/
structure Heap where
  cells : List (Nat × List Nat)
  next : Nat
deriving Repr, DecidableEq

def Heap.read (h : Heap) (a : Nat) : Option (List Nat) :=
  h.cells.lookup a

def Heap.write (h : Heap) (a : Nat) (v : List Nat) : Heap :=
  { h with cells := h.cells.map (fun c => if c.1 = a then (a, v) else c) }

def Heap.alloc (h : Heap) (v : List Nat) : Heap × Nat :=
  ({ cells := (h.next, v) :: h.cells, next := h.next + 1 }, h.next)

def Heap.free (h : Heap) (a : Nat) : Heap :=
  { h with cells := h.cells.filter (fun c => decide (c.1 ≠ a)) }

/-- Success branch of a grab iteration: read the SDK grab buffer,
copy it into a freshly allocated array (`grab_result.Array`), emit
that array's address as the frame-ready payload, then release the
grab buffer (`grab_result.Release()`).  Returns the heap after the
iteration and the emitted address. -/
def grabEmitRelease (h : Heap) (grabBuf : Nat) : Heap × Option Nat :=
  match h.read grabBuf with
  | none => (h, none)
  | some contents =>
    let alloc := h.alloc contents
    (alloc.1.free grabBuf, some alloc.2)

/-- C9: for every frame-ready emission, the emitted buffer is a copy
of the worker's internal grab buffer: after the iteration the
emitted address holds the grabbed contents, and neither overwriting
the internal grab buffer nor releasing it (again) changes the
contents read through the emitted address. -/
theorem C9_emitted_frame_is_copy (h : Heap) (grabBuf : Nat)
    (contents : List Nat) (hwf : grabBuf < h.next)
    (hread : h.read grabBuf = some contents) :
    ∃ a : Nat,
      (grabEmitRelease h grabBuf).2 = some a
      ∧ ((grabEmitRelease h grabBuf).1.read a = some contents
      ∧ (∀ v : List Nat,
          ((grabEmitRelease h grabBuf).1.write grabBuf v).read a = some contents)
      ∧ ((grabEmitRelease h grabBuf).1.free grabBuf).read a = some contents) := by
  refine ⟨h.next, ?_⟩
  have hne : h.next ≠ grabBuf := Nat.ne_of_gt hwf
  simp only [Heap.read] at hread
  simp [grabEmitRelease, hread, Heap.alloc, Heap.free, Heap.write, Heap.read,
    List.lookup, hne]

/-- Witness for C9 on a one-buffer heap. -/
theorem C9_emitted_frame_is_copy_witness :
    ∃ a : Nat,
      (grabEmitRelease ⟨[(0, [5, 6])], 1⟩ 0).2 = some a
      ∧ ((grabEmitRelease ⟨[(0, [5, 6])], 1⟩ 0).1.read a = some [5, 6]
      ∧ (∀ v : List Nat,
          ((grabEmitRelease ⟨[(0, [5, 6])], 1⟩ 0).1.write 0 v).read a = some [5, 6])
      ∧ ((grabEmitRelease ⟨[(0, [5, 6])], 1⟩ 0).1.free 0).read a = some [5, 6]) :=
  C9_emitted_frame_is_copy ⟨[(0, [5, 6])], 1⟩ 0 [5, 6] (by decide) (by decide)

end Flex
